import Mathlib

set_option maxRecDepth 10000

/-!
Verification of the rate-limiter policy engine (fixed window and sliding
window) against its natural-language specification.

Shallow embedding conventions:
* Rust `usize` is modelled as `Nat`; `i64` timestamps/intervals as `Int`.
* An unchecked `usize` subtraction in the source is modelled by
  `checkedSub`, whose `none` result stands for the debug-build underflow
  panic (release builds would wrap, which is equally outside the
  documented contract).
* The ambient clock (`LocalTime::now()`) is modelled by an injected
  `now : Int` (milliseconds); a single policy call observes one `now`.
* `f64` arithmetic in `SlidingWindowState.calculate_time_for_tokens` is
  modelled exactly over `ℚ`; the source formula's `floor` and
  truncating `as i64` casts become `Int.floor` (all cast values are
  nonnegative at every call site exercised here, where truncation and
  floor agree).
* The storage handle for a single policy (which addresses one fixed key)
  is modelled as the content of that key's slot, `Option state`, and a
  policy call additionally records the list of storage operations it
  performs.
-/

/-- Checked `usize` subtraction: `none` models the Rust debug-build
underflow panic of an unchecked `a - b` with `b > a`. -/
def checkedSub (a b : Nat) : Option Nat :=
  if b ≤ a then some (a - b) else none

/-- Two's-complement `i64 → usize` cast (`x as usize` in the source). -/
def i64ToUsize (x : Int) : Nat :=
  (x % (2 : Int) ^ 64).toNat

/-- Result snapshot `RateLimit` from src/rate_limit.rs (timestamps as
millisecond integers). -/
structure RateLimit where
  available_tokens : Nat
  retry_after : Int
  accepted : Bool
  limit : Nat
deriving DecidableEq, Repr

/-- Result `Reservation` from src/reservation.rs. -/
structure Reservation where
  time_to_act : Int
  rate_limit : RateLimit
deriving DecidableEq, Repr

/-- Reservation errors from src/error.rs. -/
inductive ReserveError where
  | TooManyTokensError (requested : Nat) (max : Nat)
  | MaxWaitDurationExceededError
deriving DecidableEq, Repr

/-- Construction errors from src/error.rs. -/
inductive PolicyError where
  | ZeroLimitError
  | EmptyKeyError
deriving DecidableEq, Repr

/-- Outcome of one policy call: a normal result, a typed error, or a
panic (an unchecked arithmetic failure aborting the call). -/
inductive CallResult where
  | ok (r : Reservation)
  | err (e : ReserveError)
  | panicked
deriving DecidableEq, Repr

/-- Storage operations a policy call can perform on its key's slot. -/
inductive StorageOp where
  | fetch
  | save
deriving DecidableEq, Repr

/-- State entity of the fixed-window algorithm
(src/policy/fixed_window.rs, struct FixedWindowState). -/
structure FixedWindowState where
  key : String
  hit_count : Nat
  interval : Int
  max_size : Nat
  timer : Int
deriving DecidableEq, Repr

namespace FixedWindowState

/-- FixedWindowState::new. -/
def new (key : String) (interval : Int) (max_size : Nat) : FixedWindowState :=
  { key := key, hit_count := 0, interval := interval, max_size := max_size, timer := 0 }

/-- FixedWindowState::add. The source takes `Option`s defaulting `hits`
to 1 and `now` to the ambient clock; `reserve` always passes both. -/
def add (s : FixedWindowState) (hits : Option Nat) (now : Int) : FixedWindowState :=
  let hits := hits.getD 1
  let s := if now - s.timer > s.interval then { s with timer := now, hit_count := 0 } else s
  { s with hit_count := s.hit_count + hits }

/-- FixedWindowState::get_available_tokens. Here `none` is the source's
own explicit sentinel (the guarded branch), not a panic. -/
def get_available_tokens (s : FixedWindowState) (now : Int) : Option Nat :=
  if now - s.timer > s.interval then some s.max_size
  else if s.hit_count > s.max_size then none
  else some (s.max_size - s.hit_count)

/-- FixedWindowState::calculate_time_for_tokens. The source computes
`self.max_size - self.hit_count` as an unchecked usize subtraction, so
`none` here models the underflow panic when `hit_count > max_size`. -/
def calculate_time_for_tokens (s : FixedWindowState) (tokens : Nat) (now : Int) : Option Int :=
  match checkedSub s.max_size s.hit_count with
  | none => none
  | some remaining =>
    if remaining ≥ tokens then some 0
    else some (s.timer + s.interval - now)

end FixedWindowState

/-- Outcome of a fixed-window policy call: result, the key's slot after
the call, and the storage operations performed. -/
structure FixedCallOut where
  result : CallResult
  store : Option FixedWindowState
  ops : List StorageOp
deriving DecidableEq, Repr

/-- The state a fixed-window reserve call operates on: the fetched slot
content, or a fresh state when the slot is empty (reserve lines 24-31). -/
def fixedEffState (key : String) (interval : Int) (limit : Nat)
    (store : Option FixedWindowState) : FixedWindowState :=
  store.getD (FixedWindowState.new key interval limit)

/-- FixedWindowPolicy::reserve (src/policy/fixed_window.rs). `store` is
the content of this policy's key slot; `fetch`/`save` are recorded in
`ops` in call order. -/
def fixedReserve (limit : Nat) (key : String) (interval : Int)
    (store : Option FixedWindowState) (tokens : Nat) (max_time : Option Int)
    (now : Int) : FixedCallOut :=
  if tokens > limit then
    { result := .err (.TooManyTokensError tokens limit), store := store, ops := [] }
  else
    let state := fixedEffState key interval limit store
    let available_tokens := state.get_available_tokens now
    if tokens = 0 then
      match state.calculate_time_for_tokens tokens now with
      | none => { result := .panicked, store := store, ops := [.fetch] }
      | some wait_duration =>
        let retry_after := now + wait_duration
        { result := .ok
            { time_to_act := retry_after,
              rate_limit :=
                { available_tokens := available_tokens.getD 0,
                  retry_after := retry_after, accepted := true, limit := limit } },
          store := store, ops := [.fetch] }
    else if _h : ∃ a, available_tokens = some a ∧ a ≥ tokens then
      let state := state.add (some tokens) now
      { result := .ok
          { time_to_act := now,
            rate_limit :=
              { available_tokens := (state.get_available_tokens now).getD 0,
                retry_after := now, accepted := true, limit := limit } },
        store := some state, ops := [.fetch, .save] }
    else
      match state.calculate_time_for_tokens tokens now with
      | none => { result := .panicked, store := store, ops := [.fetch] }
      | some wait_duration =>
        if _h : ∃ m, max_time = some m ∧ wait_duration > m then
          { result := .err .MaxWaitDurationExceededError, store := store, ops := [.fetch] }
        else
          let state := state.add (some tokens) now
          let retry_after := now + wait_duration
          { result := .ok
              { time_to_act := retry_after,
                rate_limit :=
                  { available_tokens := (state.get_available_tokens now).getD 0,
                    retry_after := retry_after, accepted := false, limit := limit } },
            store := some state, ops := [.fetch, .save] }

/-- FixedWindowPolicy::consume, i.e. reserve with no wait bound. -/
def fixedConsume (limit : Nat) (key : String) (interval : Int)
    (store : Option FixedWindowState) (tokens : Nat) (now : Int) : FixedCallOut :=
  fixedReserve limit key interval store tokens none now

/-- Configuration of a constructed FixedWindowPolicy (the storage handle
it borrows is not read during construction). -/
structure FixedWindowPolicy where
  limit : Nat
  key : String
  interval : Int
deriving DecidableEq, Repr

/-- FixedWindowPolicy::new. Performs no storage operation. -/
def FixedWindowPolicy.new (limit : Nat) (key : String) (interval : Int) :
    Except PolicyError FixedWindowPolicy :=
  if limit = 0 then .error .ZeroLimitError
  else if key.isEmpty then .error .EmptyKeyError
  else .ok { limit := limit, key := key, interval := interval }

/-- State entity of the sliding-window algorithm
(src/policy/sliding_window.rs, struct SlidingWindowState). -/
structure SlidingWindowState where
  key : String
  hit_count : Nat
  hit_count_for_last_window : Nat
  interval : Int
  window_end_at : Int
deriving DecidableEq, Repr

namespace SlidingWindowState

/-- SlidingWindowState::new (`window_end_at` is the ambient clock plus
the interval). -/
def new (key : String) (interval : Int) (now : Int) : SlidingWindowState :=
  { key := key, hit_count := 0, hit_count_for_last_window := 0,
    interval := interval, window_end_at := now + interval }

/-- SlidingWindowState::create_from_previous_window. -/
def create_from_previous_window (window : SlidingWindowState) (interval : Int)
    (now : Int) : SlidingWindowState :=
  let n := new window.key interval now
  let window_end_at := window.window_end_at + interval
  if now < window_end_at then
    { n with hit_count_for_last_window := window.hit_count, window_end_at := window_end_at }
  else
    n

/-- SlidingWindowState::is_expired. -/
def is_expired (s : SlidingWindowState) (now : Int) : Bool :=
  now > s.window_end_at

/-- SlidingWindowState::add (the source's `Option` argument defaults to
1; `reserve` always passes `Some`). -/
def add (s : SlidingWindowState) (hits : Option Nat) : SlidingWindowState :=
  { s with hit_count := s.hit_count + hits.getD 1 }

/-- SlidingWindowState::get_hit_count. The source computes
`min(now - start_of_window, 1)` on i64, casts it to usize
(two's-complement), and then evaluates the unchecked usize expression
`hit_count_for_last_window * (1 - percent) + hit_count`; `none` models
the underflow panic of `1 - percent` when the cast wrapped. -/
def get_hit_count (s : SlidingWindowState) (now : Int) : Option Nat :=
  let start_of_window := s.window_end_at - s.interval
  let percent_of_current_time_frame := i64ToUsize (min (now - start_of_window) 1)
  match checkedSub 1 percent_of_current_time_frame with
  | none => none
  | some w => some (s.hit_count_for_last_window * w + s.hit_count)

/-- SlidingWindowState::calculate_time_for_tokens. The f64 arithmetic is
modelled exactly over ℚ (all exercised inputs keep every cast value
nonnegative and far below the saturation bounds, where f64 `floor`,
`as usize` and `as i64` agree with `Int.floor`); `none` models the
underflow panic of one of the two unchecked usize subtractions. The
final i64 division is truncated division, as in Rust. -/
def calculate_time_for_tokens (s : SlidingWindowState) (max_size tokens : Nat)
    (now : Int) : Option Int :=
  match s.get_hit_count now with
  | none => none
  | some hc =>
    match checkedSub max_size hc with
    | none => none
    | some remaining =>
      if remaining ≥ tokens then some 0
      else
        let start_of_window := s.window_end_at - s.interval
        let time_passed := now - start_of_window
        let window_passed : ℚ :=
          let value : ℚ := (time_passed : ℚ) / (s.interval : ℚ)
          if value > 1 then 1 else value
        let decayed : Nat :=
          (Int.floor ((s.hit_count_for_last_window : ℚ) * (1 - window_passed))).toNat
        match checkedSub max_size decayed with
        | none => none
        | some sub =>
          let releasable := max 1 sub
          let remaining_window := i64ToUsize (s.interval - time_passed)
          let needed := tokens - remaining
          if releasable ≥ needed then
            some (Int.floor ((needed : ℚ) *
              ((remaining_window : ℚ) / ((max 1 releasable : Nat) : ℚ))))
          else
            some ((s.window_end_at - now) +
              ((needed : Int) - (releasable : Int)) * (s.interval / (max_size : Int)))

end SlidingWindowState

/-- Configuration of a constructed SlidingWindowPolicy. -/
structure SlidingWindowPolicy where
  limit : Nat
  key : String
  interval : Int
deriving DecidableEq, Repr

/-- SlidingWindowPolicy::new. Performs no storage operation. -/
def SlidingWindowPolicy.new (limit : Nat) (key : String) (interval : Int) :
    Except PolicyError SlidingWindowPolicy :=
  if limit = 0 then .error .ZeroLimitError
  else if key.isEmpty then .error .EmptyKeyError
  else .ok { limit := limit, key := key, interval := interval }

/-- SlidingWindowPolicy::get_available_tokens (the private helper on the
policy, using the policy's own limit). -/
def SlidingWindowPolicy.get_available_tokens (limit hit_count : Nat) : Option Nat :=
  if hit_count > limit then none
  else some (limit - hit_count)

/-- Outcome of a sliding-window policy call. -/
structure SlidingCallOut where
  result : CallResult
  store : Option SlidingWindowState
  ops : List StorageOp
deriving DecidableEq, Repr

/-- The state a sliding-window reserve call operates on: the fetched
slot content (or a fresh state when the slot is empty), rolled forward
when expired (reserve lines 33-40). -/
def slidingEffState (key : String) (interval : Int) (now : Int)
    (store : Option SlidingWindowState) : SlidingWindowState :=
  let state0 := store.getD (SlidingWindowState.new key interval now)
  if state0.is_expired now then
    SlidingWindowState.create_from_previous_window state0 interval now
  else state0

/-- SlidingWindowPolicy::reserve (src/policy/sliding_window.rs). -/
def slidingReserve (limit : Nat) (key : String) (interval : Int)
    (store : Option SlidingWindowState) (tokens : Nat) (max_time : Option Int)
    (now : Int) : SlidingCallOut :=
  if tokens > limit then
    { result := .err (.TooManyTokensError tokens limit), store := store, ops := [] }
  else
    let state := slidingEffState key interval now store
    match state.get_hit_count now with
    | none => { result := .panicked, store := store, ops := [.fetch] }
    | some hit_count =>
      let available_tokens := SlidingWindowPolicy.get_available_tokens limit hit_count
      if tokens = 0 then
        let a := available_tokens.getD 0
        match state.calculate_time_for_tokens limit hit_count now with
        | none => { result := .panicked, store := store, ops := [.fetch] }
        | some reset_duration =>
          let reset_time := if a > 0 then now else now + reset_duration
          { result := .ok
              { time_to_act := now,
                rate_limit :=
                  { available_tokens := a, retry_after := reset_time,
                    accepted := true, limit := limit } },
            store := store, ops := [.fetch] }
      else if _h : ∃ a, available_tokens = some a ∧ a ≥ tokens then
        let state := state.add (some tokens)
        match state.get_hit_count now with
        | none => { result := .panicked, store := store, ops := [.fetch] }
        | some hc =>
          { result := .ok
              { time_to_act := now,
                rate_limit :=
                  { available_tokens :=
                      (SlidingWindowPolicy.get_available_tokens limit hc).getD 0,
                    retry_after := now, accepted := true, limit := limit } },
            store := some state, ops := [.fetch, .save] }
      else
        match state.calculate_time_for_tokens limit tokens now with
        | none => { result := .panicked, store := store, ops := [.fetch] }
        | some wait_duration =>
          if _h : ∃ m, max_time = some m ∧ wait_duration > m then
            { result := .err .MaxWaitDurationExceededError, store := store, ops := [.fetch] }
          else
            let state := state.add (some tokens)
            let retry_after := wait_duration + now
            match state.get_hit_count now with
            | none => { result := .panicked, store := store, ops := [.fetch] }
            | some hc =>
              { result := .ok
                  { time_to_act := retry_after,
                    rate_limit :=
                      { available_tokens :=
                          (SlidingWindowPolicy.get_available_tokens limit hc).getD 0,
                        retry_after := retry_after, accepted := false, limit := limit } },
                store := some state, ops := [.fetch, .save] }

/-- SlidingWindowPolicy::consume, i.e. reserve with no wait bound. -/
def slidingConsume (limit : Nat) (key : String) (interval : Int)
    (store : Option SlidingWindowState) (tokens : Nat) (now : Int) : SlidingCallOut :=
  slidingReserve limit key interval store tokens none now

/-- Stored slot contents along the C6 scenario: n sequential consume(1)
calls at t = 0 against a fresh key, with limit 5 and interval 1000 ms. -/
def fixedScenarioStore : Nat → Option FixedWindowState
  | 0 => none
  | n + 1 => (fixedConsume 5 "k" 1000 (fixedScenarioStore n) 1 0).store

/-- C6: fixed window, limit 5, interval 1000 ms, fresh key: five
sequential consume(1) calls at t = 0 are accepted with available_tokens
4, 3, 2, 1, 0; the sixth at t = 0 is not accepted and carries
retry_after = t + 1000 ms; a consume(1) at t = 1001 ms is accepted with
available_tokens = 4. -/
theorem C6_fixed_window_scenario :
    (fixedConsume 5 "k" 1000 (fixedScenarioStore 0) 1 0).result =
      .ok { time_to_act := 0, rate_limit :=
            { available_tokens := 4, retry_after := 0, accepted := true, limit := 5 } } ∧
    (fixedConsume 5 "k" 1000 (fixedScenarioStore 1) 1 0).result =
      .ok { time_to_act := 0, rate_limit :=
            { available_tokens := 3, retry_after := 0, accepted := true, limit := 5 } } ∧
    (fixedConsume 5 "k" 1000 (fixedScenarioStore 2) 1 0).result =
      .ok { time_to_act := 0, rate_limit :=
            { available_tokens := 2, retry_after := 0, accepted := true, limit := 5 } } ∧
    (fixedConsume 5 "k" 1000 (fixedScenarioStore 3) 1 0).result =
      .ok { time_to_act := 0, rate_limit :=
            { available_tokens := 1, retry_after := 0, accepted := true, limit := 5 } } ∧
    (fixedConsume 5 "k" 1000 (fixedScenarioStore 4) 1 0).result =
      .ok { time_to_act := 0, rate_limit :=
            { available_tokens := 0, retry_after := 0, accepted := true, limit := 5 } } ∧
    (fixedConsume 5 "k" 1000 (fixedScenarioStore 5) 1 0).result =
      .ok { time_to_act := 1000, rate_limit :=
            { available_tokens := 0, retry_after := 1000, accepted := false, limit := 5 } } ∧
    (fixedConsume 5 "k" 1000 (fixedScenarioStore 6) 1 1001).result =
      .ok { time_to_act := 1001, rate_limit :=
            { available_tokens := 4, retry_after := 1001, accepted := true, limit := 5 } } := by
  decide

/-- C5: requesting more tokens than the configured limit fails with
TooManyTokens carrying requested = tokens and max = limit, on reserve
and consume of both policies, leaving the slot untouched and performing
no storage operation at all. -/
theorem C5_too_many_tokens_never_touches_storage (limit : Nat) (key : String)
    (interval : Int) (fstore : Option FixedWindowState)
    (sstore : Option SlidingWindowState) (tokens : Nat) (max_time : Option Int)
    (now : Int) (h : tokens > limit) :
    fixedReserve limit key interval fstore tokens max_time now =
      { result := .err (.TooManyTokensError tokens limit), store := fstore, ops := [] } ∧
    fixedConsume limit key interval fstore tokens now =
      { result := .err (.TooManyTokensError tokens limit), store := fstore, ops := [] } ∧
    slidingReserve limit key interval sstore tokens max_time now =
      { result := .err (.TooManyTokensError tokens limit), store := sstore, ops := [] } ∧
    slidingConsume limit key interval sstore tokens now =
      { result := .err (.TooManyTokensError tokens limit), store := sstore, ops := [] } := by
  refine ⟨?_, ?_, ?_, ?_⟩ <;>
    simp [fixedReserve, fixedConsume, slidingReserve, slidingConsume, h]

/-- Witness for C5 at limit 2, tokens 3. -/
theorem C5_too_many_tokens_never_touches_storage_witness :
    fixedReserve 2 "k" 1000 none 3 none 0 =
      { result := .err (.TooManyTokensError 3 2), store := none, ops := [] } :=
  (C5_too_many_tokens_never_touches_storage 2 "k" 1000 none none 3 none 0
    (by decide)).1

/-- C9 counterexample: constructing a policy with limit = 0 and an empty
key fails with ZeroLimit, not EmptyKey — the limit check runs first, so
the claim "constructing with an empty key fails with EmptyKey" is false
at this input. -/
theorem C9_counterexample :
    FixedWindowPolicy.new 0 "" 1000 = .error .ZeroLimitError ∧
    SlidingWindowPolicy.new 0 "" 1000 = .error .ZeroLimitError ∧
    PolicyError.ZeroLimitError ≠ PolicyError.EmptyKeyError :=
  ⟨rfl, rfl, by decide⟩

/-- C9 (amended): limit = 0 fails with ZeroLimit (whatever the key);
limit > 0 with an empty key fails with EmptyKey; limit > 0 with a
non-empty key succeeds — for both policies, with no storage operation
involved (construction never reads or writes the store). -/
theorem C9_construction_validation (limit : Nat) (key : String) (interval : Int) :
    (limit = 0 →
      FixedWindowPolicy.new limit key interval = .error .ZeroLimitError ∧
      SlidingWindowPolicy.new limit key interval = .error .ZeroLimitError) ∧
    (limit ≠ 0 → key = "" →
      FixedWindowPolicy.new limit key interval = .error .EmptyKeyError ∧
      SlidingWindowPolicy.new limit key interval = .error .EmptyKeyError) ∧
    (limit ≠ 0 → key ≠ "" →
      FixedWindowPolicy.new limit key interval =
        .ok { limit := limit, key := key, interval := interval } ∧
      SlidingWindowPolicy.new limit key interval =
        .ok { limit := limit, key := key, interval := interval }) := by
  refine ⟨fun h0 => ?_, fun h0 hk => ?_, fun h0 hk => ?_⟩
  · simp [FixedWindowPolicy.new, SlidingWindowPolicy.new, h0]
  · subst hk
    simp only [FixedWindowPolicy.new, SlidingWindowPolicy.new, if_neg h0]
    constructor <;> rfl
  · simp [FixedWindowPolicy.new, SlidingWindowPolicy.new, h0,
      String.isEmpty_iff, hk]

/-- Witness for C9 at limit 3 and key "api". -/
theorem C9_construction_validation_witness :
    FixedWindowPolicy.new 3 "api" 1000 =
      .ok { limit := 3, key := "api", interval := 1000 } :=
  ((C9_construction_validation 3 "api" 1000).2.2 (by decide) (by decide)).1

/-- C7: an expired sliding-window state is rebuilt with hit_count 0; the
previous window's hit count and the contiguous boundary
window_end + interval are carried exactly when now is still before that
boundary, and otherwise the rebuilt state is a disjoint fresh window
(window_end = now + interval) with no carried history. -/
theorem C7_roll_forward (s : SlidingWindowState) (interval now : Int)
    (hexp : s.is_expired now = true) :
    now > s.window_end_at ∧
    (s.create_from_previous_window interval now).hit_count = 0 ∧
    (now < s.window_end_at + interval →
      (s.create_from_previous_window interval now).window_end_at =
        s.window_end_at + interval ∧
      (s.create_from_previous_window interval now).hit_count_for_last_window =
        s.hit_count) ∧
    (¬ now < s.window_end_at + interval →
      (s.create_from_previous_window interval now).window_end_at = now + interval ∧
      (s.create_from_previous_window interval now).hit_count_for_last_window = 0) := by
  have h1 : now > s.window_end_at := by
    simpa [SlidingWindowState.is_expired] using hexp
  refine ⟨h1, ?_, fun hlt => ?_, fun hge => ?_⟩
  · simp only [SlidingWindowState.create_from_previous_window, SlidingWindowState.new]
    split <;> rfl
  · simp [SlidingWindowState.create_from_previous_window, SlidingWindowState.new, hlt]
  · simp [SlidingWindowState.create_from_previous_window, SlidingWindowState.new, hge]

/-- Witness for C7 on a state with window end 1000 and hit count 3,
rolled forward at now = 1500 with interval 1000 (contiguous case). -/
theorem C7_roll_forward_witness :
    ((SlidingWindowState.mk "k" 3 1 1000 1000).create_from_previous_window
        1000 1500).hit_count = 0 ∧
    ((SlidingWindowState.mk "k" 3 1 1000 1000).create_from_previous_window
        1000 1500).hit_count_for_last_window = 3 :=
  ⟨(C7_roll_forward (SlidingWindowState.mk "k" 3 1 1000 1000) 1000 1500
      (by decide)).2.1,
   ((C7_roll_forward (SlidingWindowState.mk "k" 3 1 1000 1000) 1000 1500
      (by decide)).2.2.1 (by decide)).2⟩

/-- Modelled from the spec (§4.3): the documented effective hit count
of a sliding-window state, `hit_count_previous_window × (1 −
fraction_elapsed) + hit_count`, with `fraction_elapsed` the proportion
`(now − window_start) / interval` clamped to `[0, 1]`. Stated over ℚ for
comparison with the integer computation in the source. -/
def specEffectiveHitCount (s : SlidingWindowState) (now : Int) : ℚ :=
  let window_start := s.window_end_at - s.interval
  let frac : ℚ :=
    min (max (((now - window_start : Int) : ℚ) / ((s.interval : Int) : ℚ)) 0) 1
  (s.hit_count_for_last_window : ℚ) * (1 - frac) + (s.hit_count : ℚ)

/-- C1: the code's `get_hit_count` takes the minimum of the elapsed
MILLISECONDS and the constant 1 instead of a proportion of the interval,
so the previous window's contribution is binary. At the state with 10
hits in the previous window, none in the current one, interval 1000 ms
and window [1000, 2000], evaluated at now = 1500 (strictly inside the
window), the code reports 0 while the documented linear decay gives 5;
moreover for EVERY state whose window start lies strictly in the past,
the code weights the previous window by exactly 0. -/
theorem C1_decay_is_binary_not_linear :
    (SlidingWindowState.mk "k" 0 10 1000 2000).get_hit_count 1500 = some 0 ∧
    specEffectiveHitCount (SlidingWindowState.mk "k" 0 10 1000 2000) 1500 = 5 ∧
    (5 : ℚ) ≠ 0 ∧
    (∀ (s : SlidingWindowState) (now : Int),
      s.window_end_at - s.interval < now →
      s.get_hit_count now = some s.hit_count) := by
  refine ⟨by decide, by norm_num [specEffectiveHitCount], by norm_num, ?_⟩
  intro s now hpast
  have hmin : min (now - (s.window_end_at - s.interval)) 1 = 1 := by omega
  simp [SlidingWindowState.get_hit_count, hmin, i64ToUsize, checkedSub]

/-- C2: with hit counts above the limit — states both policies reach by
committing a denied non-probe reservation — the unchecked usize
subtraction in calculate_time_for_tokens underflows (`none` = panic)
instead of taking an explicit sentinel branch: directly on the state
functions, and end-to-end through three consume calls on each policy
(limit 5: consume 5, consume 5, then consume 1 panics). -/
theorem C2_wait_computation_underflows_past_limit :
    (FixedWindowState.mk "k" 6 1000 5 0).calculate_time_for_tokens 1 500 = none ∧
    (SlidingWindowState.mk "k" 10 0 1000 1000).calculate_time_for_tokens 5 1 500 = none ∧
    (fixedConsume 5 "k" 1000
      (fixedConsume 5 "k" 1000 (fixedConsume 5 "k" 1000 none 5 0).store 5 0).store
      1 0).result = .panicked ∧
    (slidingConsume 5 "k" 1000
      (slidingConsume 5 "k" 1000 (slidingConsume 5 "k" 1000 none 5 0).store 5 0).store
      1 0).result = .panicked := by
  have h1 : (slidingConsume 5 "k" 1000 none 5 0).store
      = some (SlidingWindowState.mk "k" 5 0 1000 1000) := by decide
  have h2 : (slidingConsume 5 "k" 1000
        (some (SlidingWindowState.mk "k" 5 0 1000 1000)) 5 0).store
      = some (SlidingWindowState.mk "k" 10 0 1000 1000) := by
    norm_num [slidingConsume, slidingReserve, slidingEffState,
      SlidingWindowState.is_expired, SlidingWindowState.new,
      SlidingWindowState.get_hit_count, SlidingWindowState.add,
      SlidingWindowState.calculate_time_for_tokens,
      SlidingWindowPolicy.get_available_tokens, checkedSub, i64ToUsize]
    rw [if_neg (by simp)]
  refine ⟨by decide, by decide, by decide, ?_⟩
  rw [h1, h2]
  decide

/-- One of two concurrent consume(1) calls against the same key slot,
limit 1, that both performed their InMemoryStorage fetch before either
performed its save: fetch returns a clone made under a momentarily held
per-key lock and save re-acquires the lock only later, so both calls
observe the empty pre-update slot. -/
def raceCallA : FixedCallOut := fixedConsume 1 "k" 1000 none 1 0

/-- The other interleaved call; it fetched the same pre-update slot as
raceCallA (interleaving fetch_A, fetch_B, save_A, save_B). -/
def raceCallB : FixedCallOut := fixedConsume 1 "k" 1000 none 1 0

/-- The slot after the interleaving: save_B lands last and overwrites
save_A unconditionally. -/
def raceFinalStore : Option FixedWindowState := raceCallB.store

/-- C4: the fetch→compute→save sequence is NOT an atomic
read-modify-write: in the interleaving fetch_A, fetch_B, save_A, save_B
of two concurrent consume(1) calls on one key with limit 1, both calls
are accepted (2 tokens granted against a limit of 1) and the final slot
records a hit count of 1 — save_B silently clobbered save_A's committed
reservation (a lost update). -/
theorem C4_lost_update_interleaving :
    raceCallA.result =
      .ok { time_to_act := 0, rate_limit :=
            { available_tokens := 0, retry_after := 0, accepted := true, limit := 1 } } ∧
    raceCallB.result =
      .ok { time_to_act := 0, rate_limit :=
            { available_tokens := 0, retry_after := 0, accepted := true, limit := 1 } } ∧
    raceFinalStore = some (FixedWindowState.mk "k" 1 1000 1 0) := by
  refine ⟨by decide, by decide, by decide⟩

/-- C3: a non-probe reserve call (tokens > 0, within the limit) whose
computed wait exceeds the provided max_wait fails with MaxWaitExceeded
and leaves the stored state exactly as before the call: no save is
performed and no capacity is consumed, on both policies. -/
theorem C3_max_wait_exceeded_no_mutation (limit : Nat) (key : String) (interval : Int) (tokens : Nat)
    (m now : Int) (htok : 0 < tokens) (hlim : tokens ≤ limit) :
    (∀ (store : Option FixedWindowState) (w : Int),
      (∀ a, (fixedEffState key interval limit store).get_available_tokens now = some a →
        a < tokens) →
      (fixedEffState key interval limit store).calculate_time_for_tokens tokens now = some w →
      m < w →
      fixedReserve limit key interval store tokens (some m) now =
        { result := .err .MaxWaitDurationExceededError, store := store, ops := [.fetch] }) ∧
    (∀ (store : Option SlidingWindowState) (hc : Nat) (w : Int),
      (slidingEffState key interval now store).get_hit_count now = some hc →
      (∀ a, SlidingWindowPolicy.get_available_tokens limit hc = some a → a < tokens) →
      (slidingEffState key interval now store).calculate_time_for_tokens limit tokens now = some w →
      m < w →
      slidingReserve limit key interval store tokens (some m) now =
        { result := .err .MaxWaitDurationExceededError, store := store, ops := [.fetch] }) := by
  have h1 : ¬ tokens > limit := by omega
  have h2 : ¬ tokens = 0 := by omega
  constructor
  · intro store w hAvail hCalc hGt
    have hne : ¬ ∃ a, (fixedEffState key interval limit store).get_available_tokens now
        = some a ∧ a ≥ tokens := by
      rintro ⟨a, ha, hge⟩
      exact absurd hge (Nat.not_le.2 (hAvail a ha))
    simp only [fixedReserve, if_neg h1, if_neg h2, dif_neg hne, hCalc]
    rw [dif_pos ⟨m, rfl, hGt⟩]
  · intro store hc w hHit hAvail hCalc hGt
    have hne : ¬ ∃ a, SlidingWindowPolicy.get_available_tokens limit hc
        = some a ∧ a ≥ tokens := by
      rintro ⟨a, ha, hge⟩
      exact absurd hge (Nat.not_le.2 (hAvail a ha))
    simp only [slidingReserve, if_neg h1, if_neg h2, hHit, dif_neg hne, hCalc]
    rw [dif_pos ⟨m, rfl, hGt⟩]

/-- Witness for C3: limit 1, a full window, one more token requested
with max_wait 0 while the computed wait is 500 ms, on both policies. -/
theorem C3_max_wait_exceeded_no_mutation_witness :
    fixedReserve 1 "k" 1000 (some (FixedWindowState.mk "k" 1 1000 1 0)) 1 (some 0) 500 =
      { result := .err .MaxWaitDurationExceededError,
        store := some (FixedWindowState.mk "k" 1 1000 1 0), ops := [.fetch] } ∧
    slidingReserve 1 "k" 1000 (some (SlidingWindowState.mk "k" 1 0 1000 1000)) 1 (some 0) 500 =
      { result := .err .MaxWaitDurationExceededError,
        store := some (SlidingWindowState.mk "k" 1 0 1000 1000), ops := [.fetch] } :=
  ⟨(C3_max_wait_exceeded_no_mutation 1 "k" 1000 1 0 500 (by decide) (by decide)).1
      (some (FixedWindowState.mk "k" 1 1000 1 0)) 500
      (fun a ha => by
        simp only [show (fixedEffState "k" 1000 1
            (some (FixedWindowState.mk "k" 1 1000 1 0))).get_available_tokens 500
            = some 0 from by decide, Option.some.injEq] at ha
        omega)
      (by decide) (by decide),
   (C3_max_wait_exceeded_no_mutation 1 "k" 1000 1 0 500 (by decide) (by decide)).2
      (some (SlidingWindowState.mk "k" 1 0 1000 1000)) 1 500
      (by decide)
      (fun a ha => by
        simp only [show SlidingWindowPolicy.get_available_tokens 1 1
            = some 0 from by decide, Option.some.injEq] at ha
        omega)
      (by norm_num [slidingEffState, SlidingWindowState.is_expired,
        SlidingWindowState.calculate_time_for_tokens, SlidingWindowState.get_hit_count,
        checkedSub, i64ToUsize])
      (by decide)⟩

/-- The reported token count of a fixed-window state never exceeds its
capacity field. -/
theorem fixed_getD_available_le (s : FixedWindowState) (now : Int) :
    (s.get_available_tokens now).getD 0 ≤ s.max_size := by
  unfold FixedWindowState.get_available_tokens
  split
  · simp
  · split
    · simp
    · simp [Nat.sub_le]

/-- FixedWindowState::add never changes the capacity field. -/
theorem fixed_add_max_size (s : FixedWindowState) (h : Option Nat) (now : Int) :
    (s.add h now).max_size = s.max_size := by
  simp only [FixedWindowState.add]
  split <;> rfl

/-- The sliding-window policy helper never reports more than limit. -/
theorem sliding_getD_available_le (limit h : Nat) :
    (SlidingWindowPolicy.get_available_tokens limit h).getD 0 ≤ limit := by
  unfold SlidingWindowPolicy.get_available_tokens
  split <;> simp [Nat.sub_le]

/-- C10: every successful reserve or consume on either policy returns a
RateLimit with available_tokens ≤ limit and a limit field equal to the
configured limit. For the fixed window the fetched state is required to
carry the configured capacity (max_size = limit), which holds of every
state this policy creates and persists; the sliding window needs no such
hypothesis since its availability is computed from the policy limit. -/
theorem C10_reported_capacity_bounded (limit : Nat) (key : String) (interval : Int) (tokens : Nat)
    (max_time : Option Int) (now : Int) :
    (∀ (store : Option FixedWindowState) (r : Reservation),
      (∀ st, store = some st → st.max_size = limit) →
      (fixedReserve limit key interval store tokens max_time now).result = .ok r →
      r.rate_limit.available_tokens ≤ limit ∧ r.rate_limit.limit = limit) ∧
    (∀ (store : Option SlidingWindowState) (r : Reservation),
      (slidingReserve limit key interval store tokens max_time now).result = .ok r →
      r.rate_limit.available_tokens ≤ limit ∧ r.rate_limit.limit = limit) := by
  constructor
  · intro store r hmax hres
    have hms : (fixedEffState key interval limit store).max_size = limit := by
      cases store with
      | none => rfl
      | some st => exact hmax st rfl
    simp only [fixedReserve] at hres
    split at hres
    · simp at hres
    · split at hres
      · split at hres
        · simp at hres
        · simp only [CallResult.ok.injEq] at hres
          subst hres
          refine ⟨?_, rfl⟩
          simpa [hms] using
            fixed_getD_available_le (fixedEffState key interval limit store) now
      · split at hres
        · simp only [CallResult.ok.injEq] at hres
          subst hres
          refine ⟨?_, rfl⟩
          have h := fixed_getD_available_le
            ((fixedEffState key interval limit store).add (some tokens) now) now
          rwa [fixed_add_max_size, hms] at h
        · split at hres
          · simp at hres
          · split at hres
            · simp at hres
            · simp only [CallResult.ok.injEq] at hres
              subst hres
              refine ⟨?_, rfl⟩
              have h := fixed_getD_available_le
                ((fixedEffState key interval limit store).add (some tokens) now) now
              rwa [fixed_add_max_size, hms] at h
  · intro store r hres
    simp only [slidingReserve] at hres
    split at hres
    · simp at hres
    · split at hres
      · simp at hres
      · split at hres
        · split at hres
          · simp at hres
          · simp only [CallResult.ok.injEq] at hres
            subst hres
            exact ⟨sliding_getD_available_le limit _, rfl⟩
        · split at hres
          · split at hres
            · simp at hres
            · simp only [CallResult.ok.injEq] at hres
              subst hres
              exact ⟨sliding_getD_available_le limit _, rfl⟩
          · split at hres
            · simp at hres
            · split at hres
              · simp at hres
              · split at hres
                · simp at hres
                · simp only [CallResult.ok.injEq] at hres
                  subst hres
                  exact ⟨sliding_getD_available_le limit _, rfl⟩

/-- Witness for C10: first consume(1) on a fresh key, limit 5, for both
policies. -/
theorem C10_reported_capacity_bounded_witness :
    ((Reservation.mk 0 (RateLimit.mk 4 0 true 5)).rate_limit.available_tokens ≤ 5 ∧
     (Reservation.mk 0 (RateLimit.mk 4 0 true 5)).rate_limit.limit = 5) ∧
    ((Reservation.mk 0 (RateLimit.mk 4 0 true 5)).rate_limit.available_tokens ≤ 5 ∧
     (Reservation.mk 0 (RateLimit.mk 4 0 true 5)).rate_limit.limit = 5) :=
  ⟨(C10_reported_capacity_bounded 5 "k" 1000 1 none 0).1 none
      (Reservation.mk 0 (RateLimit.mk 4 0 true 5))
      (fun st h => Option.noConfusion h) (by decide),
   (C10_reported_capacity_bounded 5 "k" 1000 1 none 0).2 none
      (Reservation.mk 0 (RateLimit.mk 4 0 true 5)) (by decide)⟩

/-- A checked subtraction succeeds when no underflow occurs. -/
theorem checkedSub_eq_some (a b : Nat) (h : b ≤ a) : checkedSub a b = some (a - b) :=
  if_pos h

/-- A checked subtraction fails exactly on underflow. -/
theorem checkedSub_eq_none_iff (a b : Nat) : checkedSub a b = none ↔ a < b := by
  unfold checkedSub
  split
  · simp; omega
  · simp; omega

/-- The floored decayed previous-window contribution never exceeds the
previous-window hit count (for a nonnegative elapsed fraction). -/
theorem floor_decay_le (p : Nat) (q : ℚ) (hq : 0 ≤ q) :
    (Int.floor ((p : ℚ) * (1 - q))).toNat ≤ p := by
  have hle : (p : ℚ) * (1 - q) ≤ (p : ℚ) := by nlinarith
  have h2 : Int.floor ((p : ℚ) * (1 - q)) ≤ (p : Int) := by
    calc Int.floor ((p : ℚ) * (1 - q)) ≤ Int.floor ((p : ℚ)) := Int.floor_le_floor hle
    _ = (p : Int) := Int.floor_natCast p
  omega

/-- A fixed-window probe on a state whose hit count is within capacity
returns an accepted snapshot and performs no save. -/
theorem fixed_probe_eval (limit : Nat) (key : String) (interval : Int)
    (store : Option FixedWindowState) (mt : Option Int) (now : Int)
    (h : (fixedEffState key interval limit store).hit_count ≤
         (fixedEffState key interval limit store).max_size) :
    fixedReserve limit key interval store 0 mt now =
      { result := .ok (Reservation.mk now (RateLimit.mk
          (((fixedEffState key interval limit store).get_available_tokens now).getD 0)
          now true limit)),
        store := store, ops := [.fetch] } := by
  have hcalc : (fixedEffState key interval limit store).calculate_time_for_tokens 0 now
      = some 0 := by
    unfold FixedWindowState.calculate_time_for_tokens
    rw [checkedSub_eq_some _ _ h]
    simp
  simp only [fixedReserve]
  rw [if_neg (by omega), if_pos trivial, hcalc]
  simp

/-- The fixed-window token count depends on the clock only through the
window-reset predicate. -/
theorem fixed_available_time_indep (s : FixedWindowState) (now₁ now₂ : Int)
    (hcross : (now₁ - s.timer > s.interval) ↔ (now₂ - s.timer > s.interval)) :
    (s.get_available_tokens now₁).getD 0 = (s.get_available_tokens now₂).getD 0 := by
  unfold FixedWindowState.get_available_tokens
  by_cases h : now₁ - s.timer > s.interval
  · rw [if_pos h, if_pos (hcross.mp h)]
  · rw [if_neg h, if_neg (fun hh => h (hcross.mpr hh))]

/-- Sliding-window wait computation is panic-free whenever the hit
counts are within capacity and the window start is strictly past. -/
theorem sliding_calc_total (s : SlidingWindowState) (max_size tokens : Nat) (now : Int)
    (hint : 0 < s.interval)
    (hstart : s.window_end_at - s.interval < now)
    (hhc : s.get_hit_count now = some s.hit_count)
    (hhit : s.hit_count ≤ max_size)
    (hprev : s.hit_count_for_last_window ≤ max_size) :
    ∃ w, s.calculate_time_for_tokens max_size tokens now = some w := by
  simp only [SlidingWindowState.calculate_time_for_tokens, hhc,
    checkedSub_eq_some _ _ hhit]
  by_cases hrem : max_size - s.hit_count ≥ tokens
  · exact ⟨0, by rw [if_pos hrem]⟩
  · rw [if_neg hrem]
    have hq : (0 : ℚ) ≤
        (if ((now - (s.window_end_at - s.interval) : Int) : ℚ) / ((s.interval : Int) : ℚ) > 1
         then 1
         else ((now - (s.window_end_at - s.interval) : Int) : ℚ) / ((s.interval : Int) : ℚ)) := by
      split
      · norm_num
      · apply div_nonneg
        · exact_mod_cast (by omega : (0 : Int) ≤ now - (s.window_end_at - s.interval))
        · exact_mod_cast le_of_lt hint
    split
    next heq =>
      exfalso
      rw [checkedSub_eq_none_iff] at heq
      have := floor_decay_le s.hit_count_for_last_window _ hq
      omega
    next sub heq =>
      split
      · exact ⟨_, rfl⟩
      · exact ⟨_, rfl⟩

/-- A sliding-window probe on an unexpired stored state, strictly past
its window start and with hit counts within the limit, returns an
accepted snapshot with limit − hit_count tokens and performs no save. -/
theorem sliding_probe_eval (limit : Nat) (key : String) (interval : Int)
    (st : SlidingWindowState) (mt : Option Int) (now : Int)
    (hint : 0 < st.interval) (hhit : st.hit_count ≤ limit)
    (hprev : st.hit_count_for_last_window ≤ limit)
    (hstart : st.window_end_at - st.interval < now) (hend : now ≤ st.window_end_at) :
    ∃ w, slidingReserve limit key interval (some st) 0 mt now =
      { result := .ok (Reservation.mk now
          (RateLimit.mk (limit - st.hit_count) w true limit)),
        store := some st, ops := [.fetch] } := by
  have hexp : st.is_expired now = false := by
    unfold SlidingWindowState.is_expired
    simp only [decide_eq_false_iff_not]
    omega
  have heff : slidingEffState key interval now (some st) = st := by
    unfold slidingEffState
    simp [hexp]
  have hghc : st.get_hit_count now = some st.hit_count := by
    have h1 : min (now - (st.window_end_at - st.interval)) 1 = 1 := by omega
    simp only [SlidingWindowState.get_hit_count, h1]
    norm_num [i64ToUsize, checkedSub]
  obtain ⟨rd, hrd⟩ :=
    sliding_calc_total st limit st.hit_count now hint hstart hghc hhit hprev
  have havail : SlidingWindowPolicy.get_available_tokens limit st.hit_count
      = some (limit - st.hit_count) := by
    unfold SlidingWindowPolicy.get_available_tokens
    rw [if_neg (by omega)]
  refine ⟨if limit - st.hit_count > 0 then now else now + rd, ?_⟩
  simp only [slidingReserve, heff, hghc, havail]
  rw [if_neg (by omega : ¬ (0 : Nat) > limit), if_pos trivial, hrd]
  simp

/-- C8 (amended): probes with no intervening non-probe call, no window
boundary crossed (for the fixed window: both instants on the same side
of the reset predicate; for the sliding window: both instants inside the
stored window, strictly past its start), and hit counts within the
limit, always return accepted = true, never write to storage (the slot
and the operation list show no save), and report the same
available_tokens. -/
theorem C8_probes_idempotent (limit : Nat) (key : String) (interval : Int)
    (mt₁ mt₂ : Option Int) (now₁ now₂ : Int) :
    (∀ store : Option FixedWindowState,
      (fixedEffState key interval limit store).hit_count ≤
        (fixedEffState key interval limit store).max_size →
      ((now₁ - (fixedEffState key interval limit store).timer >
          (fixedEffState key interval limit store).interval) ↔
        (now₂ - (fixedEffState key interval limit store).timer >
          (fixedEffState key interval limit store).interval)) →
      fixedReserve limit key interval store 0 mt₁ now₁ =
        { result := .ok (Reservation.mk now₁ (RateLimit.mk
            (((fixedEffState key interval limit store).get_available_tokens now₁).getD 0)
            now₁ true limit)),
          store := store, ops := [.fetch] } ∧
      fixedReserve limit key interval store 0 mt₂ now₂ =
        { result := .ok (Reservation.mk now₂ (RateLimit.mk
            (((fixedEffState key interval limit store).get_available_tokens now₂).getD 0)
            now₂ true limit)),
          store := store, ops := [.fetch] } ∧
      ((fixedEffState key interval limit store).get_available_tokens now₁).getD 0 =
        ((fixedEffState key interval limit store).get_available_tokens now₂).getD 0) ∧
    (∀ st : SlidingWindowState,
      0 < st.interval → st.hit_count ≤ limit → st.hit_count_for_last_window ≤ limit →
      st.window_end_at - st.interval < now₁ → now₁ ≤ st.window_end_at →
      st.window_end_at - st.interval < now₂ → now₂ ≤ st.window_end_at →
      ∃ w₁ w₂ : Int,
        slidingReserve limit key interval (some st) 0 mt₁ now₁ =
          { result := .ok (Reservation.mk now₁
              (RateLimit.mk (limit - st.hit_count) w₁ true limit)),
            store := some st, ops := [.fetch] } ∧
        slidingReserve limit key interval (some st) 0 mt₂ now₂ =
          { result := .ok (Reservation.mk now₂
              (RateLimit.mk (limit - st.hit_count) w₂ true limit)),
            store := some st, ops := [.fetch] }) := by
  constructor
  · intro store hhit hcross
    exact ⟨fixed_probe_eval limit key interval store mt₁ now₁ hhit,
      fixed_probe_eval limit key interval store mt₂ now₂ hhit,
      fixed_available_time_indep _ now₁ now₂ hcross⟩
  · intro st hint hhit hprev hs1 he1 hs2 he2
    obtain ⟨w₁, h₁⟩ :=
      sliding_probe_eval limit key interval st mt₁ now₁ hint hhit hprev hs1 he1
    obtain ⟨w₂, h₂⟩ :=
      sliding_probe_eval limit key interval st mt₂ now₂ hint hhit hprev hs2 he2
    exact ⟨w₁, w₂, h₁, h₂⟩

/-- C8 counterexample: after two over-committing consume(5) calls
(limit 5) the stored hit count is 10, and a probe (tokens = 0) on that
state panics in the unchecked subtraction inside
calculate_time_for_tokens rather than returning accepted = true. -/
theorem C8_counterexample :
    (fixedReserve 5 "k" 1000
      (fixedConsume 5 "k" 1000 (fixedConsume 5 "k" 1000 none 5 0).store 5 0).store
      0 none 0).result = .panicked := by decide

/-- Witness for C8 at limit 5: a fixed-window state with 2 hits probed
at 500 ms, and a sliding-window state with 2 hits and 1 carried hit
probed at 500 and 600 ms. -/
theorem C8_probes_idempotent_witness :
    (fixedReserve 5 "k" 1000 (some (FixedWindowState.mk "k" 2 1000 5 0)) 0 none 500 =
      { result := .ok (Reservation.mk 500 (RateLimit.mk
          (((fixedEffState "k" 1000 5 (some (FixedWindowState.mk "k" 2 1000 5 0))).get_available_tokens 500).getD 0)
          500 true 5)),
        store := some (FixedWindowState.mk "k" 2 1000 5 0), ops := [.fetch] }) ∧
    (∃ w₁ w₂ : Int,
      slidingReserve 5 "k" 1000 (some (SlidingWindowState.mk "k" 2 1 1000 1000)) 0 none 500 =
        { result := .ok (Reservation.mk 500 (RateLimit.mk 3 w₁ true 5)),
          store := some (SlidingWindowState.mk "k" 2 1 1000 1000), ops := [.fetch] } ∧
      slidingReserve 5 "k" 1000 (some (SlidingWindowState.mk "k" 2 1 1000 1000)) 0 none 600 =
        { result := .ok (Reservation.mk 600 (RateLimit.mk 3 w₂ true 5)),
          store := some (SlidingWindowState.mk "k" 2 1 1000 1000), ops := [.fetch] }) :=
  ⟨((C8_probes_idempotent 5 "k" 1000 none none 500 600).1
      (some (FixedWindowState.mk "k" 2 1000 5 0)) (by decide) (by decide)).1,
   (C8_probes_idempotent 5 "k" 1000 none none 500 600).2
      (SlidingWindowState.mk "k" 2 1 1000 1000) (by decide) (by decide) (by decide)
      (by decide) (by decide) (by decide) (by decide)⟩
